import Mathlib

/-!
Verification development for the EBR-KE workflow engine
(`src/backend/apps/workflow/`).

The Python sources are shallowly embedded:

* `conditions.py` (`_evaluate`, `_get_var`, `evaluate_conditions`) as a
  fuel-indexed interpreter `evalExpr` over a JSON value type `JValue`,
  with Python's dynamic-typing behaviour (truthiness, `==` across types,
  `TypeError` on ill-typed arithmetic) made explicit; Python exceptions
  are `Except.error`, Python numbers are modelled as `Rat`.
* `models/definitions.py` (`WorkflowTransition.can_execute`, the model
  records) and `engine/state_machine.py` (`WorkflowEngine`) as pure
  functions over explicit state records; Django's per-call
  `transaction.atomic` rollback is modelled by the whole call returning
  `Except.error` (no partial state survives an exception); wall-clock
  time is an explicit `now : Nat` parameter (hours).
* `views/definitions.py` (`WorkflowDefinitionViewSet.activate`) as a pure
  function from a definition to a response plus updated definition.

Python's recursion (in `_evaluate` and in the
`execute_transition`/`_check_auto_transition` loop) is modelled with an
explicit fuel parameter; running out of fuel is `Except.error` mirroring
`RecursionError`.
-/

/-- JSON values as stored in the Django `JSONField`s and manipulated by
`conditions.py`.  Python `None`/`bool`/numbers/`str`/`list`/`dict` —
numbers are modelled as rationals. -/
inductive JValue where
  | null : JValue
  | bool (b : Bool) : JValue
  | num (q : Rat) : JValue
  | str (s : String) : JValue
  | list (xs : List JValue) : JValue
  | obj (kvs : List (String × JValue)) : JValue
deriving Repr, Inhabited

/-- A Python dict with string keys (well-formed: no duplicate keys). -/
abbrev JObj := List (String × JValue)

/-- Python `dict.get`: first binding of the key, `none` when absent. -/
def objLookup (k : String) : JObj → Option JValue
  | [] => none
  | (k', v) :: rest => if k' == k then some v else objLookup k rest

/-- Python `{**d, k: v}` / `d[k] = v`: overwrite the key if present,
otherwise append it. -/
def objSet (k : String) (v : JValue) : JObj → JObj
  | [] => [(k, v)]
  | (k', v') :: rest => if k' == k then (k, v) :: rest else (k', v') :: objSet k v rest

/-- Python truthiness (`bool(x)`): `None`/`False`/`0`/`''`/`[]`/`{}` are
falsy, everything else truthy. -/
def pyTruthy : JValue → Bool
  | .null => false
  | .bool b => b
  | .num q => q != 0
  | .str s => s != ""
  | .list xs => !xs.isEmpty
  | .obj kvs => !kvs.isEmpty

/-- Is the value numeric for Python arithmetic?  `bool` is a subtype of
`int` in Python, so it counts. -/
def isPyNumeric : JValue → Bool
  | .num _ => true
  | .bool _ => true
  | _ => false

/-- Numeric coercion used by Python arithmetic: numbers are themselves,
`True`/`False` are `1`/`0`, everything else is not a number. -/
def toNum : JValue → Option Rat
  | .num q => some q
  | .bool b => some (if b then 1 else 0)
  | _ => none

/-- Every key of the first dict occurs in the second (with no duplicate
keys this makes `pyEqObj a b && pyEqKeys b a` Python's dict equality). -/
def pyEqKeys : JObj → JObj → Bool
  | [], _ => true
  | (k, _) :: rest, b => (objLookup k b).isSome && pyEqKeys rest b

mutual
/-- Python `==` on JSON values: numbers and booleans compare numerically
(`True == 1`), same-type values compare structurally, values of
unrelated types are unequal (never an exception). -/
def pyEq : JValue → JValue → Bool
  | .null, .null => true
  | .bool a, .bool b => a == b
  | .bool a, .num q => (if a then (1 : Rat) else 0) == q
  | .num q, .bool b => q == (if b then (1 : Rat) else 0)
  | .num a, .num b => a == b
  | .str a, .str b => a == b
  | .list a, .list b => pyEqList a b
  | .obj a, .obj b => pyEqObj a b && pyEqKeys b a
  | _, _ => false

/-- Python `list.__eq__`: elementwise, equal lengths. -/
def pyEqList : List JValue → List JValue → Bool
  | [], [] => true
  | a :: as', b :: bs => pyEq a b && pyEqList as' bs
  | _, _ => false

/-- Every binding of the first dict is matched by an equal binding in the
second. -/
def pyEqObj : JObj → JObj → Bool
  | [], _ => true
  | (k, v) :: rest, b =>
    (match objLookup k b with
     | some w => pyEq v w
     | none => false) && pyEqObj rest b
end

mutual
/-- Python `<` on JSON values: numeric for numbers/booleans,
lexicographic for strings and lists, `TypeError` for any other
combination (including anything involving `None` or dicts). -/
def pyLt : JValue → JValue → Except String Bool
  | .num a, .num b => .ok (decide (a < b))
  | .num a, .bool b => .ok (decide (a < if b then 1 else 0))
  | .bool a, .num b => .ok (decide ((if a then (1 : Rat) else 0) < b))
  | .bool a, .bool b => .ok (decide ((if a then (1 : Rat) else 0) < if b then 1 else 0))
  | .str a, .str b => .ok (decide (a < b))
  | .list a, .list b => pyLtList a b
  | _, _ => .error "TypeError"

/-- Python list `<`: first differing element decides; a strict prefix is
smaller. -/
def pyLtList : List JValue → List JValue → Except String Bool
  | [], [] => .ok false
  | [], _ :: _ => .ok true
  | _ :: _, [] => .ok false
  | a :: as', b :: bs => if pyEq a b then pyLtList as' bs else pyLt a b
end

mutual
/-- Python `<=` on JSON values, same type discipline as `pyLt`. -/
def pyLe : JValue → JValue → Except String Bool
  | .num a, .num b => .ok (decide (a ≤ b))
  | .num a, .bool b => .ok (decide (a ≤ if b then 1 else 0))
  | .bool a, .num b => .ok (decide ((if a then (1 : Rat) else 0) ≤ b))
  | .bool a, .bool b => .ok (decide ((if a then (1 : Rat) else 0) ≤ if b then 1 else 0))
  | .str a, .str b => .ok (decide (a ≤ b))
  | .list a, .list b => pyLeList a b
  | _, _ => .error "TypeError"

/-- Python list `<=`. -/
def pyLeList : List JValue → List JValue → Except String Bool
  | [], _ => .ok true
  | _ :: _, [] => .ok false
  | a :: as', b :: bs => if pyEq a b then pyLeList as' bs else pyLt a b
end

/-- Do the characters of the first list start the second list? -/
def leadsWith : List Char → List Char → Bool
  | [], _ => true
  | _ :: _, [] => false
  | c :: cs, d :: ds => c == d && leadsWith cs ds

/-- Does `needle` occur as a contiguous run inside `hay`? -/
def hasSub (needle : List Char) : List Char → Bool
  | [] => needle.isEmpty
  | c :: t => leadsWith needle (c :: t) || hasSub needle t

/-- Python `needle in hay` for strings (substring test; the empty string
is in every string).  Also models Django's `code__contains` lookup. -/
def strContains (hay needle : String) : Bool :=
  hasSub needle.toList hay.toList

/-- Python `value in collection` for a list collection: membership via
`==`. -/
def listHas (value : JValue) : List JValue → Bool
  | [] => false
  | x :: rest => pyEq value x || listHas value rest

/-- Python `value in collection` (`in` / `contains` operators of
`_evaluate`): substring test on strings, `==`-membership on lists, key
membership on dicts (unhashable values raise), `TypeError` when the
collection is not iterable. -/
def pyIn (value coll : JValue) : Except String Bool :=
  match coll with
  | .str s =>
    match value with
    | .str v => .ok (strContains s v)
    | _ => .error "TypeError"
  | .list xs => .ok (listHas value xs)
  | .obj kvs =>
    match value with
    | .list _ => .error "TypeError"
    | .obj _ => .error "TypeError"
    | .str v => .ok (kvs.any (fun kv => kv.1 == v))
    | _ => .ok false
  | _ => .error "TypeError"

/-- Loop body of `_get_var` (`conditions.py`): walk the remaining path
segments.  On a dict, `value = value.get(part)` (absent keys give
`None`); a plain JSON value has no Python attribute named by a path
segment, so the `hasattr` branch of the source never fires for snapshot
data and any non-dict yields the default; after each step
`if value is None: return default`. -/
def getVarLoop : List String → JValue → JValue → JValue
  | [], value, _ => value
  | part :: rest, value, default =>
    match value with
    | .obj kvs =>
      match objLookup part kvs with
      | none => default
      | some .null => default
      | some v => getVarLoop rest v default
    | _ => default

/-- Accumulator loop for `splitDot`: cut the character stream at every
`'.'`, keeping empty segments, exactly like Python `str.split('.')`. -/
def splitDotAux : List Char → List Char → List String
  | [], acc => [⟨acc.reverse⟩]
  | c :: rest, acc =>
    if c == '.' then ⟨acc.reverse⟩ :: splitDotAux rest []
    else splitDotAux rest (c :: acc)

/-- Python `var_name.split('.')`. -/
def splitDot (s : String) : List String :=
  splitDotAux s.toList []

/-- The `_get_var` function of `conditions.py`: a falsy variable name
returns the whole data dict; a truthy name must be a string (otherwise
Python raises `AttributeError` at `var_name.split`), which is split on
dots and walked by `getVarLoop`. -/
def getVar (data : JObj) (varName : JValue) (default : JValue) : Except String JValue :=
  if pyTruthy varName then
    match varName with
    | .str s => .ok (getVarLoop (splitDot s) (.obj data) default)
    | _ => .error "AttributeError"
  else
    .ok (.obj data)

/-- Loop of the `missing` operator: each listed variable is looked up
with default `None`; missing means some value is `None` or `''`. -/
def missingLoop (data : JObj) : List JValue → Except String Bool
  | [] => .ok false
  | vn :: rest => do
    let value ← getVar data vn .null
    if pyEq value .null || pyEq value (.str "") then .ok true
    else missingLoop data rest

/-- Loop of the `and` operator: `all(_evaluate(arg, data) for arg in
args)` — short-circuits on the first falsy value and returns a bool. -/
def evalAndLoop (ev : JValue → JObj → Except String JValue) : List JValue → JObj → Except String Bool
  | [], _ => .ok true
  | a :: rest, data => do
    let v ← ev a data
    if pyTruthy v then evalAndLoop ev rest data else .ok false

/-- Loop of the `or` operator: `any(...)` — short-circuits on the first
truthy value. -/
def evalOrLoop (ev : JValue → JObj → Except String JValue) : List JValue → JObj → Except String Bool
  | [], _ => .ok false
  | a :: rest, data => do
    let v ← ev a data
    if pyTruthy v then .ok true else evalOrLoop ev rest data

/-- Loop of the `+` operator: Python `sum(...)` starting from `int 0`;
a non-numeric summand raises `TypeError`. -/
def evalSumLoop (ev : JValue → JObj → Except String JValue) : List JValue → JObj → Rat → Except String Rat
  | [], _, acc => .ok acc
  | a :: rest, data, acc => do
    let v ← ev a data
    match toNum v with
    | some q => evalSumLoop ev rest data (acc + q)
    | none => .error "TypeError"

/-- Python `*` on two values: numeric multiplication, or
sequence-repetition when one side is an integer and the other a string
or list (a non-integer count raises; a negative count yields the empty
sequence); anything else raises `TypeError`. -/
def pyMul (a b : JValue) : Except String JValue :=
  match toNum a, toNum b with
  | some qa, some qb => .ok (.num (qa * qb))
  | some qa, none =>
    match b with
    | .str s => if qa.den == 1 then .ok (.str ⟨(List.replicate qa.num.toNat s.toList).flatten⟩) else .error "TypeError"
    | .list xs => if qa.den == 1 then .ok (.list (List.replicate qa.num.toNat xs).flatten) else .error "TypeError"
    | _ => .error "TypeError"
  | none, some qb =>
    match a with
    | .str s => if qb.den == 1 then .ok (.str ⟨(List.replicate qb.num.toNat s.toList).flatten⟩) else .error "TypeError"
    | .list xs => if qb.den == 1 then .ok (.list (List.replicate qb.num.toNat xs).flatten) else .error "TypeError"
    | _ => .error "TypeError"
  | none, none => .error "TypeError"

/-- Loop of the `*` operator: `result = 1; for arg: result *= _evaluate(arg)`. -/
def evalMulLoop (ev : JValue → JObj → Except String JValue) : List JValue → JObj → JValue → Except String JValue
  | [], _, acc => .ok acc
  | a :: rest, data, acc => do
    let v ← ev a data
    let acc' ← pyMul acc v
    evalMulLoop ev rest data acc'

/-- Loop of the `all` operator: bind each array element as `_item` in a
copy of the data and require the template to evaluate truthy. -/
def evalAllLoop (ev : JValue → JObj → Except String JValue) (tmpl : JValue) (data : JObj) : List JValue → Except String Bool
  | [] => .ok true
  | item :: rest => do
    let v ← ev tmpl (objSet "_item" item data)
    if pyTruthy v then evalAllLoop ev tmpl data rest else .ok false

/-- Loop of the `some` operator: short-circuit on the first element whose
template evaluates truthy. -/
def evalSomeLoop (ev : JValue → JObj → Except String JValue) (tmpl : JValue) (data : JObj) : List JValue → Except String Bool
  | [] => .ok false
  | item :: rest => do
    let v ← ev tmpl (objSet "_item" item data)
    if pyTruthy v then .ok true else evalSomeLoop ev tmpl data rest

/-- The `_evaluate` function of `conditions.py`: a recursive JSON-logic
interpreter.  A non-dict expression is returned as-is; an empty dict has
no first key (`list(expression.keys())[0]` raises `IndexError`);
otherwise the first key selects the operator and its value the argument
list (a non-list argument is wrapped in a singleton).  Unknown operators
silently evaluate to `None`.  The fuel counts Python stack depth: each
nested `_evaluate` call gets one unit less, and exhaustion mirrors
`RecursionError`. -/
def evalExpr : Nat → JValue → JObj → Except String JValue
  | 0, _, _ => .error "RecursionError"
  | n + 1, expr, data =>
    match expr with
    | .obj [] => .error "IndexError"
    | .obj ((op, rawArgs) :: _) =>
      let args : List JValue :=
        match rawArgs with
        | .list xs => xs
        | other => [other]
      if op == "and" then do
        let b ← evalAndLoop (evalExpr n) args data
        .ok (.bool b)
      else if op == "or" then do
        let b ← evalOrLoop (evalExpr n) args data
        .ok (.bool b)
      else if op == "not" then
        match args with
        | [] => .error "IndexError"
        | a :: _ => do
          let v ← evalExpr n a data
          .ok (.bool (!pyTruthy v))
      else if op == "==" then
        match args with
        | [] => .error "IndexError"
        | a :: rest => do
          let va ← evalExpr n a data
          match rest with
          | [] => .error "IndexError"
          | b :: _ => do
            let vb ← evalExpr n b data
            .ok (.bool (pyEq va vb))
      else if op == "!=" then
        match args with
        | [] => .error "IndexError"
        | a :: rest => do
          let va ← evalExpr n a data
          match rest with
          | [] => .error "IndexError"
          | b :: _ => do
            let vb ← evalExpr n b data
            .ok (.bool (!pyEq va vb))
      else if op == "<" then
        match args with
        | [] => .error "IndexError"
        | a :: rest => do
          let va ← evalExpr n a data
          match rest with
          | [] => .error "IndexError"
          | b :: _ => do
            let vb ← evalExpr n b data
            let r ← pyLt va vb
            .ok (.bool r)
      else if op == ">" then
        match args with
        | [] => .error "IndexError"
        | a :: rest => do
          let va ← evalExpr n a data
          match rest with
          | [] => .error "IndexError"
          | b :: _ => do
            let vb ← evalExpr n b data
            let r ← pyLt vb va
            .ok (.bool r)
      else if op == "<=" then
        match args with
        | [] => .error "IndexError"
        | a :: rest => do
          let va ← evalExpr n a data
          match rest with
          | [] => .error "IndexError"
          | b :: _ => do
            let vb ← evalExpr n b data
            let r ← pyLe va vb
            .ok (.bool r)
      else if op == ">=" then
        match args with
        | [] => .error "IndexError"
        | a :: rest => do
          let va ← evalExpr n a data
          match rest with
          | [] => .error "IndexError"
          | b :: _ => do
            let vb ← evalExpr n b data
            let r ← pyLe vb va
            .ok (.bool r)
      else if op == "in" then
        match args with
        | [] => .error "IndexError"
        | a :: rest => do
          let value ← evalExpr n a data
          match rest with
          | [] => .error "IndexError"
          | b :: _ => do
            let coll ← evalExpr n b data
            let r ← pyIn value coll
            .ok (.bool r)
      else if op == "contains" then
        match args with
        | [] => .error "IndexError"
        | a :: rest => do
          let coll ← evalExpr n a data
          match rest with
          | [] => .error "IndexError"
          | b :: _ => do
            let value ← evalExpr n b data
            let r ← pyIn value coll
            .ok (.bool r)
      else if op == "var" then
        match args with
        | [] => .error "IndexError"
        | vn :: rest => getVar data vn (rest.headD .null)
      else if op == "if" then
        match args with
        | [] => .error "IndexError"
        | c :: rest => do
          let cv ← evalExpr n c data
          if pyTruthy cv then
            match rest with
            | th :: _ => evalExpr n th data
            | [] => .ok (.bool true)
          else
            match rest with
            | _ :: el :: _ => evalExpr n el data
            | _ => .ok (.bool false)
      else if op == "missing" then do
        let b ← missingLoop data args
        .ok (.bool b)
      else if op == "all" then
        match args with
        | [] => .error "IndexError"
        | a :: rest => do
          let arr ← evalExpr n a data
          match rest with
          | [] => .error "IndexError"
          | tmpl :: _ =>
            match arr with
            | .list xs => do
              let b ← evalAllLoop (evalExpr n) tmpl data xs
              .ok (.bool b)
            | _ => .ok (.bool false)
      else if op == "some" then
        match args with
        | [] => .error "IndexError"
        | a :: rest => do
          let arr ← evalExpr n a data
          match rest with
          | [] => .error "IndexError"
          | tmpl :: _ =>
            match arr with
            | .list xs => do
              let b ← evalSomeLoop (evalExpr n) tmpl data xs
              .ok (.bool b)
            | _ => .ok (.bool false)
      else if op == "+" then do
        let q ← evalSumLoop (evalExpr n) args data 0
        .ok (.num q)
      else if op == "-" then
        match args with
        | [] => .error "IndexError"
        | [a] => do
          let v ← evalExpr n a data
          match toNum v with
          | some q => .ok (.num (-q))
          | none => .error "TypeError"
        | a :: b :: _ => do
          let va ← evalExpr n a data
          let vb ← evalExpr n b data
          match toNum va, toNum vb with
          | some qa, some qb => .ok (.num (qa - qb))
          | _, _ => .error "TypeError"
      else if op == "*" then
        evalMulLoop (evalExpr n) args data (.num 1)
      else if op == "/" then
        match args with
        | [] => .error "IndexError"
        | a :: rest => do
          let dividend ← evalExpr n a data
          match rest with
          | [] => .error "IndexError"
          | b :: _ => do
            let divisor ← evalExpr n b data
            if pyEq divisor (.num 0) then .ok .null
            else
              match toNum dividend, toNum divisor with
              | some qa, some qb => .ok (.num (qa / qb))
              | _, _ => .error "TypeError"
      else
        .ok .null
    | e => .ok e

/-- The `evaluate_conditions` function of `conditions.py`, taking the
already-extracted record snapshot (`_get_record_data` is the Django
model boundary): a falsy conditions value means no conditions, which is
`True`; otherwise the raw `_evaluate` result is returned (the caller
applies truthiness). -/
def evaluateConditions (fuel : Nat) (conditions : JValue) (data : JObj) : Except String JValue :=
  if pyTruthy conditions then evalExpr fuel conditions data
  else .ok (.bool true)


/-- WorkflowDefinition.Status (`models/definitions.py`). -/
inductive DefStatus where
  | draft | active | deprecated | archived
deriving DecidableEq, Repr

/-- WorkflowInstance.Status (`models/instances.py`). -/
inductive InstStatus where
  | active | completed | cancelled | suspended
deriving DecidableEq, Repr

/-- ApprovalRequest.Status (`models/instances.py`). -/
inductive ReqStatus where
  | pending | approved | rejected | escalated | expired | cancelled
deriving DecidableEq, Repr

/-- ApprovalRule.ApprovalType (`models/definitions.py`). -/
inductive ApprovalType where
  | single | all | any | majority | sequential
deriving DecidableEq, Repr

/-- An actor, as the engine sees it: `user.get_all_permissions_set()`
and `user.roles.values_list('code', flat=True)` are carried as lists of
codes (the IAM service is an external collaborator). -/
structure UserM where
  id : Nat
  email : String
  permissions : List String
  roles : List String
deriving Repr

/-- WorkflowState (`models/definitions.py`), the fields the engine
reads.  `timeout_hours` is a nullable positive integer; blank
`timeout_action` is the empty string; `auto_transition_to` is a nullable
self-reference carried by id. -/
structure WState where
  id : Nat
  workflow_id : Nat
  code : String
  name : String
  is_initial : Bool
  is_terminal : Bool
  auto_transition_enabled : Bool
  auto_transition_to : Option Nat
  timeout_hours : Option Nat
  timeout_action : String
deriving Repr

/-- WorkflowTransition (`models/definitions.py`), the fields the engine
reads.  `from_state`/`to_state` are carried as embedded state records
(the ORM navigates the foreign keys the same way); a blank
`required_permission` is the empty string; a SQL NULL `conditions` is
JSON `null` (both are falsy). -/
structure Transition where
  id : Nat
  workflow_id : Nat
  code : String
  name : String
  from_state : WState
  to_state : WState
  required_permission : String
  required_roles : List String
  conditions : JValue
  requires_approval : Bool
  pre_actions : List JValue
  post_actions : List JValue
  is_active : Bool
deriving Repr

/-- ApprovalRule (`models/definitions.py`), the fields `process_approval`
and `_create_approval_request` read. -/
structure ApprovalRuleM where
  id : Nat
  transition_id : Nat
  approval_type : ApprovalType
  min_approvals : Nat
  escalation_hours : Option Nat
deriving Repr

/-- ApprovalRequest (`models/instances.py`), the fields the engine
writes. -/
structure ApprovalReq where
  transition_id : Nat
  approval_rule_id : Nat
  requested_by : Nat
  status : ReqStatus
  deadline : Option Nat
  request_notes : String
  record_snapshot : JObj
deriving Repr

/-- ApprovalDecision (`models/instances.py`): one approver's verdict. -/
structure DecisionM where
  decision : String
  decided_by : Nat
  comments : String
deriving Repr

/-- StateHistory (`models/instances.py`), the fields
`execute_transition` writes. -/
structure HistoryEntry where
  from_state : Option Nat
  to_state : Nat
  transition : Option Nat
  triggered_by : Nat
  action : String
  notes : String
  time_in_state : Option Nat
deriving Repr

/-- The per-definition catalog data the engine queries: the definition's
id, its transitions, and the approval rules (kept in the model `Meta`
ordering `['transition', 'order']`, so that `approval_rules.first()` is
the head of the per-transition filter). -/
structure Workflow where
  id : Nat
  transitions : List Transition
  approval_rules : List ApprovalRuleM
deriving Repr

/-- The mutable world of one `WorkflowEngine`: the instance row
(current state, status, timing), the record snapshot the conditions and
actions see, the StateHistory ledger and the ApprovalRequest rows.
`current_state` carries the full state record, mirroring
`self.current_state` on the engine. -/
structure EngState where
  current_state : WState
  status : InstStatus
  state_entered_at : Nat
  state_deadline : Option Nat
  completed_at : Option Nat
  completed_by : Option Nat
  record : JObj
  history : List HistoryEntry
  requests : List ApprovalReq
deriving Repr

/-- WorkflowTransition.can_execute (`models/definitions.py` 319-348):
permission check, then role-intersection check, then guard-condition
check; first failure returns `(False, reason)`; no state is written. -/
def Transition.can_execute (fuel : Nat) (t : Transition) (user : UserM) (record : JObj) : Except String (Bool × Option String) :=
  if t.required_permission != "" && !user.permissions.contains t.required_permission then
    .ok (false, some "Missing required permission")
  else if !t.required_roles.isEmpty && !user.roles.any (fun r => t.required_roles.contains r) then
    .ok (false, some "Missing required role")
  else if pyTruthy t.conditions then do
    let v ← evaluateConditions fuel t.conditions record
    if pyTruthy v then .ok (true, none) else .ok (false, some "Conditions not met")
  else .ok (true, none)

/-- WorkflowEngine.can_execute_transition (`state_machine.py` 110-131):
current-state check, workflow-membership check, then the transition's
own `can_execute`. -/
def can_execute_transition (w : Workflow) (fuel : Nat) (st : EngState) (t : Transition) (user : UserM) : Except String (Bool × Option String) :=
  if t.from_state.id != st.current_state.id then
    .ok (false, some "Transition not available from current state")
  else if t.workflow_id != w.id then
    .ok (false, some "Transition not part of this workflow")
  else
    t.can_execute fuel user st.record

/-- WorkflowEngine._execute_actions with _send_notification /
_update_field / _call_webhook: notification and webhook are
placeholders (`pass`); `update_field` writes the value when the field
name is truthy and the record has that field; a non-dict action entry
raises at `action.get`, a truthy non-string field name raises inside
`hasattr`.  The record is its snapshot dict. -/
def executeActions : List JValue → JObj → Except String JObj
  | [], record => .ok record
  | action :: rest, record =>
    match action with
    | .obj kvs =>
      let aType := (objLookup "type" kvs).getD .null
      if pyEq aType (.str "notification") then
        executeActions rest record
      else if pyEq aType (.str "update_field") then
        let fieldName := (objLookup "field" kvs).getD .null
        let value := (objLookup "value" kvs).getD .null
        match fieldName with
        | .str f =>
          if f != "" && (objLookup f record).isSome then
            executeActions rest (objSet f value record)
          else
            executeActions rest record
        | other =>
          if pyTruthy other then .error "TypeError"
          else executeActions rest record
      else if pyEq aType (.str "webhook") then
        executeActions rest record
      else
        executeActions rest record
    | _ => .error "AttributeError"

/-- The transition query of WorkflowEngine._check_auto_transition
(`state_machine.py` 363-369): first active transition of this workflow
from the given state to the auto-transition target. -/
def findAutoTransition (w : Workflow) (state : WState) (target : Nat) : Option Transition :=
  w.transitions.find? (fun tr =>
    tr.workflow_id == w.id && tr.from_state.id == state.id &&
    tr.to_state.id == target && tr.is_active)

/-- The rule selection of WorkflowEngine._create_approval_request:
`transition.approval_rules.first()` under the model ordering. -/
def firstApprovalRule (w : Workflow) (t : Transition) : Option ApprovalRuleM :=
  (w.approval_rules.filter (fun r => r.transition_id == t.id)).head?

/-- WorkflowEngine.execute_transition (`state_machine.py` 133-227) with
WorkflowEngine._check_auto_transition (357-379) inlined at its call
site (the helper re-reads the same `auto_transition_enabled` /
`auto_transition_to` values the caller just tested).  The whole call is
one `transaction.atomic` block, so an exception anywhere (modelled as
`Except.error`) leaves no state change.  The audit-log append is an
external collaborator with no engine-visible state.  The first fuel
pattern mirrors Python's `RecursionError` on an unbounded
auto-transition chain. -/
def execute_transition (w : Workflow) (now : Nat) : Nat → EngState → Transition → UserM → String → Bool → Except String ((Bool × String × Option ApprovalReq) × EngState)
  | 0, _, _, _, _, _ => .error "RecursionError"
  | fuel + 1, st, t, user, notes, skipApproval => do
    let (can, reason) ← can_execute_transition w fuel st t user
    if !can then
      .ok ((false, reason.getD "", none), st)
    else if t.requires_approval && !skipApproval then
      -- _create_approval_request (`state_machine.py` 229-267)
      match firstApprovalRule w t with
      | none => .error "Transition requires approval but has no approval rules"
      | some rule =>
        let deadline : Option Nat :=
          match rule.escalation_hours with
          | some h => if h == 0 then none else some (now + h)
          | none => none
        let req : ApprovalReq := {
          transition_id := t.id
          approval_rule_id := rule.id
          requested_by := user.id
          status := .pending
          deadline := deadline
          request_notes := notes
          record_snapshot := st.record }
        .ok ((true, "Approval request created", some req),
             { st with requests := st.requests ++ [req] })
    else do
      let time_in_state := now - st.state_entered_at
      let record1 ← executeActions t.pre_actions st.record
      let previous := st.current_state
      let ns := t.to_state
      let entry : HistoryEntry := {
        from_state := some previous.id
        to_state := ns.id
        transition := some t.id
        triggered_by := user.id
        action := t.code
        notes := notes
        time_in_state := some time_in_state }
      let st1 : EngState := { st with
        record := record1
        history := st.history ++ [entry]
        current_state := ns
        state_entered_at := now
        state_deadline :=
          match ns.timeout_hours with
          | some h => if h == 0 then none else some (now + h)
          | none => none
        status := if ns.is_terminal then .completed else st.status
        completed_at := if ns.is_terminal then some now else st.completed_at
        completed_by := if ns.is_terminal then some user.id else st.completed_by }
      let record2 ← executeActions t.post_actions st1.record
      let st2 := { st1 with record := record2 }
      if ns.auto_transition_enabled && ns.auto_transition_to.isSome then
        match ns.auto_transition_to with
        | some target =>
          match findAutoTransition w ns target with
          | some tr => do
            let (can2, _) ← can_execute_transition w fuel st2 tr user
            if can2 then do
              let r ← execute_transition w now fuel st2 tr user "Auto-transition" true
              .ok ((true, "Transitioned to " ++ ns.name, none), r.2)
            else
              .ok ((true, "Transitioned to " ++ ns.name, none), st2)
          | none => .ok ((true, "Transitioned to " ++ ns.name, none), st2)
        | none => .ok ((true, "Transitioned to " ++ ns.name, none), st2)
      else
        .ok ((true, "Transitioned to " ++ ns.name, none), st2)

/-- The mutable part of one ApprovalRequest as `process_approval` sees
it: its status and its recorded decisions. -/
structure ApprovalSt where
  status : ReqStatus
  decisions : List DecisionM
deriving Repr

/-- The fixed context of one ApprovalRequest: its rule, its transition
and the original requester (`request.approval_rule`,
`request.transition`, `request.requested_by`). -/
structure ApprovalCtx where
  rule : ApprovalRuleM
  transition : Transition
  requested_by : UserM
deriving Repr

/-- WorkflowEngine.process_approval (`state_machine.py` 269-355): reject
when not pending; append the decision; any rejected decision vetoes the
request; then the `single` / `all` / `any` branches approve and invoke
`execute_transition` (with `skip_approval=True`, sliced to
`(success, message)`); `majority` and `sequential` have no branch and
fall through to the waiting message. -/
def process_approval (w : Workflow) (now fuel : Nat) (ctx : ApprovalCtx) (appr : ApprovalSt) (st : EngState) (user : UserM) (decision comments : String) : Except String ((Bool × String) × ApprovalSt × EngState) :=
  if appr.status != .pending then
    .ok ((false, "Approval request is not pending"), appr, st)
  else
    let ds := appr.decisions ++ [{ decision := decision, decided_by := user.id, comments := comments }]
    let approved_count := ds.countP (fun d => d.decision == "approved")
    let rejected_count := ds.countP (fun d => d.decision == "rejected")
    if rejected_count > 0 then
      .ok ((true, "Approval request rejected"), { status := .rejected, decisions := ds }, st)
    else if ctx.rule.approval_type == .single then
      if approved_count ≥ 1 then do
        let r ← execute_transition w now fuel st ctx.transition ctx.requested_by ("Approved by " ++ user.email) true
        .ok ((r.1.1, r.1.2.1), { status := .approved, decisions := ds }, r.2)
      else
        .ok ((true, "Decision recorded, waiting for more approvals"), { appr with decisions := ds }, st)
    else if ctx.rule.approval_type == .all then
      if approved_count ≥ ctx.rule.min_approvals then do
        let r ← execute_transition w now fuel st ctx.transition ctx.requested_by "Approved by multiple approvers" true
        .ok ((r.1.1, r.1.2.1), { status := .approved, decisions := ds }, r.2)
      else
        .ok ((true, "Decision recorded, waiting for more approvals"), { appr with decisions := ds }, st)
    else if ctx.rule.approval_type == .any then
      if approved_count ≥ 1 then do
        let r ← execute_transition w now fuel st ctx.transition ctx.requested_by ("Approved by " ++ user.email) true
        .ok ((r.1.1, r.1.2.1), { status := .approved, decisions := ds }, r.2)
      else
        .ok ((true, "Decision recorded, waiting for more approvals"), { appr with decisions := ds }, st)
    else
      .ok ((true, "Decision recorded, waiting for more approvals"), { appr with decisions := ds }, st)

/-- WorkflowDefinition as the activate view sees it. -/
structure WorkflowDefM where
  name : String
  status : DefStatus
  states : List WState
  modified_by : Option Nat
deriving Repr

/-- WorkflowDefinitionViewSet.activate (`views/definitions.py` 65-92):
only drafts activate; the validation checks are Django `exists()`
queries on `is_initial` and `is_terminal`; the boolean is the HTTP
success (200 vs 400). -/
def activate (wf : WorkflowDefM) (userId : Nat) : (Bool × String) × WorkflowDefM :=
  if wf.status != .draft then
    ((false, "Only draft workflows can be activated."), wf)
  else if !wf.states.any (fun s => s.is_initial) then
    ((false, "Workflow must have an initial state."), wf)
  else if !wf.states.any (fun s => s.is_terminal) then
    ((false, "Workflow must have at least one terminal state."), wf)
  else
    ((true, "Workflow " ++ wf.name ++ " activated."), { wf with status := .active, modified_by := some userId })

/-- The timeout-transition query of WorkflowEngine._handle_timeout
(`state_machine.py` 452-458): first active transition of this workflow
leaving the current state whose code contains the substring
`'timeout'` (`code__contains='timeout'`). -/
def findTimeoutTransition (w : Workflow) (state : WState) : Option Transition :=
  w.transitions.find? (fun tr =>
    tr.workflow_id == w.id && tr.from_state.id == state.id &&
    strContains tr.code "timeout" && tr.is_active)

/-- WorkflowEngine._handle_timeout (`state_machine.py` 433-471):
`escalate` marks every pending approval request escalated; `notify` is a
placeholder; `transition` executes the first code-matched timeout
transition as the system user (`system@ebr.local`) with
`skip_approval=True`, silently doing nothing when no transition or no
system user is found. -/
def handle_timeout (w : Workflow) (now fuel : Nat) (users : List UserM) (st : EngState) : Except String EngState :=
  let state := st.current_state
  if state.timeout_action == "escalate" then
    .ok { st with requests := st.requests.map (fun r =>
      if r.status == .pending then { r with status := .escalated } else r) }
  else if state.timeout_action == "notify" then
    .ok st
  else if state.timeout_action == "transition" then
    match findTimeoutTransition w state with
    | none => .ok st
    | some tr =>
      match users.find? (fun u => u.email == "system@ebr.local") with
      | none => .ok st
      | some sys => do
        let r ← execute_transition w now fuel st tr sys "Auto-transition due to timeout" true
        .ok r.2
  else
    .ok st

/-- The sweep filter of WorkflowEngine.check_timed_out_states
(`state_machine.py` 411-431): active instances whose deadline elapsed
(`state_deadline__lt=now`; SQL NULL deadlines are excluded). -/
def isTimedOut (now : Nat) (st : EngState) : Bool :=
  st.status == .active &&
    (match st.state_deadline with
     | some d => decide (d < now)
     | none => false)

/-- A workflow state with all optional behaviour switched off, for
concrete test configurations. -/
def baseState (id : Nat) (code : String) : WState := {
  id := id
  workflow_id := 1
  code := code
  name := code
  is_initial := false
  is_terminal := false
  auto_transition_enabled := false
  auto_transition_to := none
  timeout_hours := none
  timeout_action := "" }

/-- A guard-free manual transition between two states, for concrete test
configurations. -/
def baseTransition (id : Nat) (wid : Nat) (code : String) (a b : WState) : Transition := {
  id := id
  workflow_id := wid
  code := code
  name := code
  from_state := a
  to_state := b
  required_permission := ""
  required_roles := []
  conditions := .null
  requires_approval := false
  pre_actions := []
  post_actions := []
  is_active := true }

/-- An engine world sitting in the given state with empty ledger. -/
def baseEng (s : WState) : EngState := {
  current_state := s
  status := .active
  state_entered_at := 0
  state_deadline := none
  completed_at := none
  completed_by := none
  record := []
  history := []
  requests := [] }

/-- A draft definition with two initial states and one terminal state. -/
def twoInitialDef : WorkflowDefM := {
  name := "QA Review"
  status := .draft
  states := [
    { baseState 1 "draft" with is_initial := true },
    { baseState 2 "alt_intake" with is_initial := true },
    { baseState 3 "closed" with is_terminal := true }]
  modified_by := none }

/-- A well-formed draft definition: one initial, one terminal state. -/
def goodDef : WorkflowDefM := {
  name := "Release"
  status := .draft
  states := [
    { baseState 1 "open" with is_initial := true },
    { baseState 2 "done" with is_terminal := true }]
  modified_by := none }

/-- Shared approval fixtures: a two-state workflow whose transition
requires approval, under a `single` and under a `majority` rule. -/
def s1 : WState := { baseState 1 "submitted" with is_initial := true }

/-- Target state of the approval transition. -/
def s2 : WState := baseState 2 "released"

/-- The approval-requiring transition from `s1` to `s2`. -/
def t12app : Transition := { baseTransition 11 1 "approve" s1 s2 with requires_approval := true }

/-- A `single` rule on `t12app`. -/
def ruleSingle : ApprovalRuleM :=
  { id := 31, transition_id := 11, approval_type := .single, min_approvals := 1, escalation_hours := none }

/-- A `majority` rule on `t12app` requiring one approval. -/
def ruleMajority : ApprovalRuleM :=
  { id := 32, transition_id := 11, approval_type := .majority, min_approvals := 1, escalation_hours := none }

/-- Workflow carrying the `single` rule. -/
def wSingle : Workflow := { id := 1, transitions := [t12app], approval_rules := [ruleSingle] }

/-- Workflow carrying the `majority` rule. -/
def wMajority : Workflow := { id := 1, transitions := [t12app], approval_rules := [ruleMajority] }

/-- The original requester of the approval fixtures. -/
def requester : UserM := { id := 3, email := "requester@ebr.local", permissions := [], roles := [] }

/-- An approver for the approval fixtures. -/
def approver : UserM := { id := 7, email := "qa@ebr.local", permissions := [], roles := [] }

/-- Approval context under the `single` rule. -/
def ctxSingle : ApprovalCtx := { rule := ruleSingle, transition := t12app, requested_by := requester }

/-- Approval context under the `majority` rule. -/
def ctxMajority : ApprovalCtx := { rule := ruleMajority, transition := t12app, requested_by := requester }

/-- The approval workflow of `wSingle` with its rule list emptied: a
configuration error (transition requires approval, no rule). -/
def wNoRule : Workflow := { id := 1, transitions := [t12app], approval_rules := [] }

/-- State that auto-transitions to `sB`. -/
def sA : WState := { baseState 1 "stage_a" with auto_transition_enabled := true, auto_transition_to := some 2 }

/-- State that auto-transitions back to `sA`. -/
def sB : WState := { baseState 2 "stage_b" with auto_transition_enabled := true, auto_transition_to := some 1 }

/-- Guard-free active transition `sA → sB`. -/
def tAB : Transition := baseTransition 21 1 "to_b" sA sB

/-- Guard-free active transition `sB → sA`. -/
def tBA : Transition := baseTransition 22 1 "to_a" sB sA

/-- The cyclic auto-transition configuration: `sA` and `sB` each
auto-transition to the other through always-enabled transitions. -/
def wCyc : Workflow := { id := 1, transitions := [tAB, tBA], approval_rules := [] }

/-- A state whose timeout action is `transition`. -/
def sX : WState := { baseState 5 "in_review" with timeout_action := "transition", timeout_hours := some 4 }

/-- Target of the would-be timeout transition. -/
def sY : WState := baseState 6 "returned"

/-- An active guard-free transition out of `sX` whose code does not
mention timeouts. -/
def trPlain : Transition := baseTransition 41 3 "advance" sX sY

/-- The same transition with `"timeout"` in its code. -/
def trNamed : Transition := { trPlain with code := "advance_timeout" }

/-- Workflow containing only the plainly-named transition. -/
def wPlain : Workflow := { id := 3, transitions := [trPlain], approval_rules := [] }

/-- Workflow containing only the timeout-named transition. -/
def wNamed : Workflow := { id := 3, transitions := [trNamed], approval_rules := [] }

/-- The system account used by timeout transitions. -/
def sysUser : UserM := { id := 99, email := "system@ebr.local", permissions := [], roles := [] }

/-- C6: evaluating a division node whose dividend evaluates successfully
and whose divisor evaluates to a value Python-equal to `0` (the source
tests `divisor == 0`) returns null and raises no exception. -/
theorem div_by_zero_yields_null (fuel : Nat) (data : JObj) (a b va vb : JValue)
    (ha : evalExpr fuel a data = .ok va)
    (hb : evalExpr fuel b data = .ok vb)
    (h0 : pyEq vb (.num 0) = true) :
    evalExpr (fuel + 1) (.obj [("/", .list [a, b])]) data = .ok .null := by
  simp [evalExpr, ha, hb, h0, Bind.bind, Except.bind]

/-- C6 witness: `Evaluate({"/": [10, 0]}, {}) == null`. -/
theorem div_by_zero_yields_null_witness :
    evalExpr 2 (.obj [("/", .list [.num 10, .num 0])]) [] = .ok .null :=
  div_by_zero_yields_null 1 [] (.num 10) (.num 0) (.num 10) (.num 0) rfl rfl rfl

/-- C10: in `_get_var`, a path segment that is present but bound to null
yields the default exactly like an absent segment — at any position of
the walk — so a non-null default masks an explicitly-null field. -/
theorem null_field_yields_default (kvs : JObj) (k : String) (rest : List String) (d : JValue)
    (h : objLookup k kvs = some .null) :
    getVarLoop (k :: rest) (.obj kvs) d = d ∧
    (∀ s : String, s ≠ "" → splitDot s = k :: rest → getVar kvs (.str s) d = .ok d) := by
  constructor
  · simp [getVarLoop, h]
  · intro s hs hsplit
    simp [getVar, pyTruthy, hs, hsplit, getVarLoop, h]

/-- C10 witness: a snapshot with `{"a": null}` resolves `var "a"` with a
non-null default to the default. -/
theorem null_field_yields_default_witness :
    getVarLoop ["a"] (.obj [("a", JValue.null)]) (.str "dflt") = .str "dflt" ∧
    getVar [("a", JValue.null)] (.str "a") (.str "dflt") = .ok (.str "dflt") :=
  ⟨(null_field_yields_default [("a", .null)] "a" [] (.str "dflt") rfl).1,
   (null_field_yields_default [("a", .null)] "a" [] (.str "dflt") rfl).2 "a" (by decide) rfl⟩

/-- C5 counterexample: arithmetic is not total and does not fail softly.
A subtraction whose left operand is null (a var lookup on missing data)
and an addition of two strings both raise `TypeError` instead of
returning null, and a multiplication over a single string operand
returns that string, not null. -/
theorem arith_non_numeric_counterexample :
    evalExpr 9 (.obj [("-", .list [.obj [("var", .str "x")], .num 1])]) [] = .error "TypeError" ∧
    evalExpr 9 (.obj [("+", .list [.str "a", .str "b"])]) [] = .error "TypeError" ∧
    evalExpr 9 (.obj [("*", .list [.str "ab"])]) [] = .ok (.str "ab") :=
  ⟨rfl, rfl, rfl⟩

/-- C5 amended: `+`, `-` and `/` nodes raise `TypeError` (the evaluation
is partial) whenever an operand evaluates to a non-numeric value
(numeric meaning Python number or bool); there is no numeric coercion
and no null result; only division by zero returns null, and `*` can
even return a repeated string/list for an integer-times-sequence
operand pair. -/
theorem arith_non_numeric_raises (fuel : Nat) (data : JObj) (a b va vb : JValue)
    (ha : evalExpr fuel a data = .ok va)
    (hb : evalExpr fuel b data = .ok vb)
    (hn : isPyNumeric va = false) :
    evalExpr (fuel + 1) (.obj [("-", .list [a, b])]) data = .error "TypeError" ∧
    evalExpr (fuel + 1) (.obj [("+", .list [a])]) data = .error "TypeError" ∧
    (pyEq vb (.num 0) = false →
      evalExpr (fuel + 1) (.obj [("/", .list [a, b])]) data = .error "TypeError") := by
  have hnum : toNum va = none := by
    cases va <;> simp_all [isPyNumeric, toNum]
  refine ⟨?_, ?_, ?_⟩
  · simp [evalExpr, ha, hb, hnum, Bind.bind, Except.bind]
  · simp [evalExpr, evalSumLoop, ha, hnum, Bind.bind, Except.bind]
  · intro h0
    simp [evalExpr, ha, hb, hnum, h0, Bind.bind, Except.bind]

/-- C5 amended witness: instantiated at a null left operand and divisor 7. -/
theorem arith_non_numeric_raises_witness :
    evalExpr 9 (.obj [("-", .list [.obj [("var", .str "x")], .num 7])]) [] = .error "TypeError" ∧
    evalExpr 9 (.obj [("/", .list [.obj [("var", .str "x")], .num 7])]) [] = .error "TypeError" :=
  ⟨(arith_non_numeric_raises 8 [] (.obj [("var", .str "x")]) (.num 7) .null (.num 7) rfl rfl rfl).1,
   (arith_non_numeric_raises 8 [] (.obj [("var", .str "x")]) (.num 7) .null (.num 7) rfl rfl rfl).2.2 rfl⟩

/-- C2 counterexample: a draft with two states flagged initial (and a
terminal state) passes the activate view's validation and becomes
active — the view only checks `exists()`, not uniqueness. -/
theorem activate_two_initials_counterexample :
    twoInitialDef.status = .draft ∧
    twoInitialDef.states.countP (fun s => s.is_initial) = 2 ∧
    (activate twoInitialDef 9).1.1 = true ∧
    (activate twoInitialDef 9).2.status = .active :=
  ⟨rfl, rfl, rfl, rfl⟩

/-- C2 amended: activation succeeds exactly when the definition is a
draft with at least one initial and at least one terminal state
(multiple initial states are not rejected); on success the status
becomes active, on failure the definition is unchanged. -/
theorem activate_characterization (wf : WorkflowDefM) (userId : Nat) :
    ((activate wf userId).1.1 = true ↔
      wf.status = .draft ∧ wf.states.any (fun s => s.is_initial) = true ∧
        wf.states.any (fun s => s.is_terminal) = true) ∧
    ((activate wf userId).1.1 = true → (activate wf userId).2.status = .active) ∧
    ((activate wf userId).1.1 = false → (activate wf userId).2 = wf) := by
  unfold activate
  rcases h1 : wf.status == DefStatus.draft <;>
    rcases h2 : wf.states.any (fun s => s.is_initial) <;>
      rcases h3 : wf.states.any (fun s => s.is_terminal) <;>
        simp_all [bne, beq_iff_eq]

/-- C2 amended witness: a well-formed draft activates. -/
theorem activate_characterization_witness :
    (activate goodDef 5).2.status = .active :=
  (activate_characterization goodDef 5).2.1
    ((activate_characterization goodDef 5).1.mpr ⟨rfl, rfl, rfl⟩)

/-- C7: a `rejected` decision on a pending request always ends the
request rejected — whatever the policy and whatever decisions were
recorded before — returns the rejection message, and leaves the engine
state (current state, history, requests) untouched, so the executor is
never invoked; and a request that is not pending refuses any further
decision without recording it. -/
theorem rejection_vetoes (w : Workflow) (now fuel : Nat) (ctx : ApprovalCtx)
    (appr : ApprovalSt) (st : EngState) (user : UserM) (d comments : String) :
    (appr.status = .pending →
      process_approval w now fuel ctx appr st user "rejected" comments =
        .ok ((true, "Approval request rejected"),
          { status := .rejected,
            decisions := appr.decisions ++
              [{ decision := "rejected", decided_by := user.id, comments := comments }] },
          st)) ∧
    (appr.status ≠ .pending →
      process_approval w now fuel ctx appr st user d comments =
        .ok ((false, "Approval request is not pending"), appr, st)) := by
  constructor
  · intro h
    simp [process_approval, h, List.countP_append, List.countP_cons]
  · intro h
    simp [process_approval, bne_iff_ne, h]

/-- C7 witness: a rejection after one prior approval, under the `single`
rule. -/
theorem rejection_vetoes_witness :
    process_approval wSingle 0 5 ctxSingle
        { status := .pending, decisions := [{ decision := "approved", decided_by := 7, comments := "" }] }
        (baseEng s1) approver "rejected" "defect" =
      .ok ((true, "Approval request rejected"),
        { status := .rejected,
          decisions := [{ decision := "approved", decided_by := 7, comments := "" },
                        { decision := "rejected", decided_by := 7, comments := "defect" }] },
        baseEng s1) :=
  (rejection_vetoes wSingle 0 5 ctxSingle
    { status := .pending, decisions := [{ decision := "approved", decided_by := 7, comments := "" }] }
    (baseEng s1) approver "x" "defect").1 rfl

/-- C1: with a `majority` rule whose `min_approvals` is 1, the first
approved decision does not approve the request and does not invoke the
executor: `process_approval` dispatches only on `single`, `all` and
`any`, so `majority` (like `sequential`) falls through to the waiting
message, the request stays pending and the engine state is unchanged. -/
theorem majority_first_approval_does_not_trigger :
    process_approval wMajority 0 5 ctxMajority { status := .pending, decisions := [] }
        (baseEng s1) approver "approved" "ok" =
      .ok ((true, "Decision recorded, waiting for more approvals"),
        { status := .pending,
          decisions := [{ decision := "approved", decided_by := 7, comments := "ok" }] },
        baseEng s1) := rfl

/-- C8: the transition authorizer checks guards in a fixed order with
the first failure winning: wrong current state, then wrong workflow,
then missing permission, then missing role, then a falsy guard
condition; when every guard passes it returns `(True, None)`.  The
authorizer is a pure function of the workflow, engine state, transition
and actor — it writes nothing. -/
theorem guard_check_order (w : Workflow) (fuel : Nat) (st : EngState) (t : Transition) (user : UserM) :
    (t.from_state.id ≠ st.current_state.id →
      can_execute_transition w fuel st t user =
        .ok (false, some "Transition not available from current state")) ∧
    (t.from_state.id = st.current_state.id → t.workflow_id ≠ w.id →
      can_execute_transition w fuel st t user =
        .ok (false, some "Transition not part of this workflow")) ∧
    (t.from_state.id = st.current_state.id → t.workflow_id = w.id →
      t.required_permission ≠ "" → user.permissions.contains t.required_permission = false →
      can_execute_transition w fuel st t user =
        .ok (false, some "Missing required permission")) ∧
    (t.from_state.id = st.current_state.id → t.workflow_id = w.id →
      (t.required_permission = "" ∨ user.permissions.contains t.required_permission = true) →
      t.required_roles ≠ [] → user.roles.any (fun r => t.required_roles.contains r) = false →
      can_execute_transition w fuel st t user =
        .ok (false, some "Missing required role")) ∧
    (t.from_state.id = st.current_state.id → t.workflow_id = w.id →
      (t.required_permission = "" ∨ user.permissions.contains t.required_permission = true) →
      (t.required_roles = [] ∨ user.roles.any (fun r => t.required_roles.contains r) = true) →
      pyTruthy t.conditions = true →
      ∀ v, evaluateConditions fuel t.conditions st.record = .ok v → pyTruthy v = false →
      can_execute_transition w fuel st t user = .ok (false, some "Conditions not met")) ∧
    (t.from_state.id = st.current_state.id → t.workflow_id = w.id →
      (t.required_permission = "" ∨ user.permissions.contains t.required_permission = true) →
      (t.required_roles = [] ∨ user.roles.any (fun r => t.required_roles.contains r) = true) →
      (pyTruthy t.conditions = false ∨
        ∃ v, evaluateConditions fuel t.conditions st.record = .ok v ∧ pyTruthy v = true) →
      can_execute_transition w fuel st t user = .ok (true, none)) := by
  refine ⟨?_, ?_, ?_, ?_, ?_, ?_⟩
  · intro h1
    simp [can_execute_transition, bne_iff_ne, h1]
  · intro h1 h2
    simp [can_execute_transition, bne_iff_ne, h1, h2]
  · intro h1 h2 h3 h4
    have h4' : t.required_permission ∉ user.permissions := by simpa using h4
    simp [can_execute_transition, Transition.can_execute, bne_iff_ne, h1, h2, h3, h4']
  · intro h1 h2 hp hr hno
    have hno' : ∀ x ∈ user.roles, x ∉ t.required_roles := by simpa using hno
    have hperm : ¬(¬t.required_permission = "" ∧ t.required_permission ∉ user.permissions) := by
      rcases hp with hp | hp
      · simp [hp]
      · intro hc
        exact hc.2 (by simpa using hp)
    simp [can_execute_transition, Transition.can_execute, bne_iff_ne, h1, h2, hperm, hr, hno']
    intro x hx hx2
    exact absurd hx2 (hno' x hx)
  · intro h1 h2 hp hrp htr v hev hv
    have hperm : ¬(¬t.required_permission = "" ∧ t.required_permission ∉ user.permissions) := by
      rcases hp with hp | hp
      · simp [hp]
      · intro hc
        exact hc.2 (by simpa using hp)
    have hrol : ¬(¬t.required_roles = [] ∧ ∀ x ∈ user.roles, x ∉ t.required_roles) := by
      rcases hrp with hrp | hrp
      · simp [hrp]
      · obtain ⟨x, hx1, hx2⟩ : ∃ x ∈ user.roles, x ∈ t.required_roles := by simpa using hrp
        intro hc
        exact hc.2 x hx1 hx2
    simp [can_execute_transition, Transition.can_execute, bne_iff_ne, h1, h2, hperm, hrol, htr,
      hev, hv, Bind.bind, Except.bind]
  · intro h1 h2 hp hrp hcond
    have hperm : ¬(¬t.required_permission = "" ∧ t.required_permission ∉ user.permissions) := by
      rcases hp with hp | hp
      · simp [hp]
      · intro hc
        exact hc.2 (by simpa using hp)
    have hrol : ¬(¬t.required_roles = [] ∧ ∀ x ∈ user.roles, x ∉ t.required_roles) := by
      rcases hrp with hrp | hrp
      · simp [hrp]
      · obtain ⟨x, hx1, hx2⟩ : ∃ x ∈ user.roles, x ∈ t.required_roles := by simpa using hrp
        intro hc
        exact hc.2 x hx1 hx2
    rcases hcond with hcond | ⟨v, hev, hv⟩
    · simp [can_execute_transition, Transition.can_execute, bne_iff_ne, h1, h2, hperm, hrol, hcond]
    · simp [can_execute_transition, Transition.can_execute, bne_iff_ne, h1, h2, hperm, hrol,
        hev, hv, Bind.bind, Except.bind]

/-- C8 witness: the guard-free approval transition passes every check
from its source state. -/
theorem guard_check_order_witness :
    can_execute_transition wSingle 5 (baseEng s1) t12app approver = .ok (true, none) :=
  (guard_check_order wSingle 5 (baseEng s1) t12app approver).2.2.2.2.2
    rfl rfl (Or.inl rfl) (Or.inl rfl) (Or.inl rfl)

/-- C9: when a transition requires approval and approval is not skipped,
a passing execute call creates one pending approval request carrying the
record snapshot and returns success with the request attached, changing
nothing else — current state, entry time, deadline, status, completion
fields, record and the StateHistory ledger are exactly as before, only
the request list grows; when the transition has no approval rule the
whole call aborts with the configuration error. -/
theorem approval_request_frame (w : Workflow) (now fuel : Nat) (st : EngState) (t : Transition)
    (user : UserM) (notes : String) (reason : Option String)
    (hreq : t.requires_approval = true)
    (hcan : can_execute_transition w fuel st t user = .ok (true, reason)) :
    (firstApprovalRule w t = none →
      execute_transition w now (fuel + 1) st t user notes false =
        .error "Transition requires approval but has no approval rules") ∧
    (∀ rule, firstApprovalRule w t = some rule →
      ∃ req : ApprovalReq, req.status = .pending ∧
        execute_transition w now (fuel + 1) st t user notes false =
          .ok ((true, "Approval request created", some req),
               { st with requests := st.requests ++ [req] })) := by
  constructor
  · intro hnone
    simp [execute_transition, hcan, hreq, hnone, Bind.bind, Except.bind]
  · intro rule hsome
    refine ⟨{ transition_id := t.id, approval_rule_id := rule.id, requested_by := user.id,
              status := .pending,
              deadline := match rule.escalation_hours with
                          | some h => if h == 0 then none else some (now + h)
                          | none => none,
              request_notes := notes, record_snapshot := st.record }, rfl, ?_⟩
    simp [execute_transition, hcan, hreq, hsome, Bind.bind, Except.bind]

/-- C9 witness: the no-rule configuration aborts, and the `single`-rule
configuration returns the pending request with the engine state
otherwise untouched. -/
theorem approval_request_frame_witness :
    execute_transition wNoRule 0 6 (baseEng s1) t12app requester "please" false =
      .error "Transition requires approval but has no approval rules" ∧
    (∃ req : ApprovalReq, req.status = .pending ∧
      execute_transition wSingle 0 6 (baseEng s1) t12app requester "please" false =
        .ok ((true, "Approval request created", some req),
             { baseEng s1 with requests := (baseEng s1).requests ++ [req] })) :=
  ⟨(approval_request_frame wNoRule 0 5 (baseEng s1) t12app requester "please" none rfl rfl).1 rfl,
   (approval_request_frame wSingle 0 5 (baseEng s1) t12app requester "please" none rfl rfl).2 ruleSingle rfl⟩

/-- C3: the auto-transition chain has no depth bound or visited-state
set: on the two-state cycle `sA ⇄ sB` the executor recurses forever —
for every recursion budget the call exhausts it and dies with Python's
RecursionError instead of aborting with a configuration error. -/
theorem auto_transition_cycle_diverges (fuel : Nat) :
    ∀ (st : EngState) (user : UserM) (notes : String) (skip : Bool),
      (st.current_state = sA →
        execute_transition wCyc 0 fuel st tAB user notes skip = .error "RecursionError") ∧
      (st.current_state = sB →
        execute_transition wCyc 0 fuel st tBA user notes skip = .error "RecursionError") := by
  induction fuel with
  | zero =>
    intro st user notes skip
    exact ⟨fun _ => rfl, fun _ => rfl⟩
  | succ n ih =>
    intro st user notes skip
    have haR : ∀ st2 : EngState, st2.current_state = sA →
        execute_transition wCyc 0 n st2 tAB user "Auto-transition" true = .error "RecursionError" :=
      fun st2 h => (ih st2 user "Auto-transition" true).1 h
    have hbR : ∀ st2 : EngState, st2.current_state = sB →
        execute_transition wCyc 0 n st2 tBA user "Auto-transition" true = .error "RecursionError" :=
      fun st2 h => (ih st2 user "Auto-transition" true).2 h
    have e1 : (tAB.from_state.id != sA.id) = false := rfl
    have e2 : (tAB.workflow_id != wCyc.id) = false := rfl
    have e3 : (tAB.required_permission != "") = false := rfl
    have e4 : tAB.required_roles.isEmpty = true := rfl
    have e5 : pyTruthy tAB.conditions = false := rfl
    have e6 : tAB.requires_approval = false := rfl
    have e7 : tAB.pre_actions = [] := rfl
    have e7' : tAB.post_actions = [] := rfl
    have e8 : tAB.to_state = sB := rfl
    have f1 : (tBA.from_state.id != sB.id) = false := rfl
    have f2 : (tBA.workflow_id != wCyc.id) = false := rfl
    have f3 : (tBA.required_permission != "") = false := rfl
    have f4 : tBA.required_roles.isEmpty = true := rfl
    have f5 : pyTruthy tBA.conditions = false := rfl
    have f6 : tBA.requires_approval = false := rfl
    have f7 : tBA.pre_actions = [] := rfl
    have f7' : tBA.post_actions = [] := rfl
    have f8 : tBA.to_state = sA := rfl
    have gB1 : sB.is_terminal = false := rfl
    have gB2 : sB.auto_transition_enabled = true := rfl
    have gB3 : sB.auto_transition_to = some 1 := rfl
    have gB4 : sB.timeout_hours = none := rfl
    have gA1 : sA.is_terminal = false := rfl
    have gA2 : sA.auto_transition_enabled = true := rfl
    have gA3 : sA.auto_transition_to = some 2 := rfl
    have gA4 : sA.timeout_hours = none := rfl
    have h9 : findAutoTransition wCyc sB 1 = some tBA := rfl
    have h9' : findAutoTransition wCyc sA 2 = some tAB := rfl
    constructor
    · intro hst
      simp [execute_transition, can_execute_transition, Transition.can_execute, executeActions,
        hst, e1, e2, e3, e4, e5, e6, e7, e7', e8, gB1, gB2, gB3, gB4, h9,
        f1, f2, f3, f4, f5, hbR, Bind.bind, Except.bind]
    · intro hst
      simp [execute_transition, can_execute_transition, Transition.can_execute, executeActions,
        hst, f1, f2, f3, f4, f5, f6, f7, f7', f8, gA1, gA2, gA3, gA4, h9',
        e1, e2, e3, e4, e5, haR, Bind.bind, Except.bind]

/-- C3 witness: from `sA` with recursion budget 4 the executor dies with
the recursion error. -/
theorem auto_transition_cycle_diverges_witness :
    execute_transition wCyc 0 4 (baseEng sA) tAB requester "go" false = .error "RecursionError" :=
  (auto_transition_cycle_diverges 4 (baseEng sA) requester "go" false).1 rfl

/-- C4 counterexample: the timeout sweep has no designated-transition
configuration; it locates the transition purely by the substring
`'timeout'` in its code.  Two configurations identical except for the
transition's code behave differently: with code `advance` nothing is
found and the instance stays put; with code `advance_timeout` the
transition is located and executed. -/
theorem timeout_locator_counterexample :
    trNamed = { trPlain with code := "advance_timeout" } ∧
    findTimeoutTransition wPlain sX = none ∧
    findTimeoutTransition wNamed sX = some trNamed ∧
    handle_timeout wPlain 9 9 [sysUser] (baseEng sX) = .ok (baseEng sX) ∧
    Except.map (fun s => s.current_state.id) (handle_timeout wNamed 9 9 [sysUser] (baseEng sX)) = .ok 6 :=
  ⟨rfl, rfl, rfl, rfl, rfl⟩

/-- C4 amended: when a timed-out state's action is `transition`, the
sweep locates the first active outgoing transition of this workflow
whose code contains the substring `'timeout'` (a name-matching
heuristic, not a designated configuration field), silently does nothing
when none matches, and otherwise executes the match as the system user
`system@ebr.local` with approval skipped. -/
theorem timeout_transition_by_name_heuristic (w : Workflow) (now fuel : Nat)
    (users : List UserM) (st : EngState)
    (h : st.current_state.timeout_action = "transition") :
    (∀ tr, findTimeoutTransition w st.current_state = some tr →
      strContains tr.code "timeout" = true ∧ tr.from_state.id = st.current_state.id ∧
      tr.workflow_id = w.id ∧ tr.is_active = true) ∧
    (findTimeoutTransition w st.current_state = none →
      handle_timeout w now fuel users st = .ok st) ∧
    (∀ tr sys, findTimeoutTransition w st.current_state = some tr →
      users.find? (fun u => u.email == "system@ebr.local") = some sys →
      handle_timeout w now fuel users st =
        Except.map (fun r => r.2)
          (execute_transition w now fuel st tr sys "Auto-transition due to timeout" true)) := by
  refine ⟨?_, ?_, ?_⟩
  · intro tr htr
    have hp := List.find?_some htr
    simp only [Bool.and_eq_true, beq_iff_eq] at hp
    exact ⟨hp.1.2, hp.1.1.2, hp.1.1.1, hp.2⟩
  · intro hnone
    simp [handle_timeout, h, hnone]
  · intro tr sys htr hsys
    cases hE : execute_transition w now fuel st tr sys "Auto-transition due to timeout" true with
    | ok r => simp [handle_timeout, h, htr, hsys, hE, Bind.bind, Except.bind, Except.map]
    | error e => simp [handle_timeout, h, htr, hsys, hE, Bind.bind, Except.bind, Except.map]

/-- C4 amended witness: the name-matched configuration reduces the sweep
to the executor call with the system user and approval skipped. -/
theorem timeout_transition_by_name_heuristic_witness :
    handle_timeout wNamed 9 9 [sysUser] (baseEng sX) =
      Except.map (fun r => r.2)
        (execute_transition wNamed 9 9 (baseEng sX) trNamed sysUser "Auto-transition due to timeout" true) :=
  (timeout_transition_by_name_heuristic wNamed 9 9 [sysUser] (baseEng sX) rfl).2.2
    trNamed sysUser rfl rfl
